import Mathlib

/-!
# The k6 load-test scripts of `.ci/perf_tests/k6scripts`

A shallow embedding of the four scripts

* `SyncGetBlobAsBytesReturnHttpResponse.js`
* `SyncPutBlobAsBytesReturnHttpResponse.js`
* `SyncHttpTriggerHelloWorld.js`
* `SyncHttpTriggerHtmlParser.js`

Each script is a straight-line JavaScript module run by the k6 harness.  The
module-level `var`s become functions of the environment `__ENV`, the exported
`options` object becomes a record, and the exported functions become state
transformers over the part of the harness a script can touch: the log of HTTP
requests it issued and the samples it added to its custom metrics.

What the scripts import (`check`, `Rate`, `http`, `open`, `randomIntBetween`)
is not part of the repository; it appears here as the small models of section
"Harness" or as a parameter.
-/

namespace K6

/-! ## JavaScript values and operators used by the scripts -/

/-- An exception raised while a script runs. -/
inductive JSError where
  /-- A JavaScript `TypeError`, e.g. reading a property of `null`. -/
  | typeError (msg : String)
  /-- An error thrown from inside the harness, e.g. by `Response.json()`. -/
  | goError (msg : String)
  deriving Repr, DecidableEq

/-- The values a parsed JSON document, or a property read from one, can be.
Only integral numbers are told apart: the scripts compare a number with the
integer `268435456` and nothing else. -/
inductive JSVal where
  | undefined
  | null
  | bool (b : Bool)
  | num (n : Int)
  | str (s : String)
  | arr (items : List JSVal)
  | obj (fields : List (String × JSVal))

/-- The environment object `__ENV`: a variable is unset (`undefined`) or holds
a string. -/
abbrev Env := String → Option String

/-- JavaScript `a || b` for `a` of type string-or-undefined and `b` a string:
`a` when it is truthy, i.e. a non-empty string, and `b` otherwise. -/
def jsOr (a : Option String) (b : String) : String :=
  match a with
  | some s => if s = "" then b else s
  | none => b

/-- Property read `v.name`: a `TypeError` on `undefined` and `null`, the field
for an object that has it, `undefined` in every other case (none of the other
values has a property called `content_size`). -/
def getProp (v : JSVal) (name : String) : Except JSError JSVal :=
  match v with
  | .undefined => .error (.typeError ("Cannot read property " ++ name ++ " of undefined"))
  | .null => .error (.typeError ("Cannot read property " ++ name ++ " of null"))
  | .obj fields =>
    match fields.lookup name with
    | some x => .ok x
    | none => .ok .undefined
  | _ => .ok .undefined

/-- Strict equality `v === n` against a number. -/
def strictEqNum (v : JSVal) (n : Int) : Bool :=
  match v with
  | .num m => m == n
  | _ => false

/-- Search loop of `String.prototype.indexOf`: the first position `k ≥ i` at
which `pat` starts in `i`-shifted `s`, or `-1`. -/
def indexOfFrom (pat : List Char) : List Char → Nat → Int
  | [], i => if pat = [] then (i : Int) else -1
  | c :: cs, i => if pat.isPrefixOf (c :: cs) then (i : Int) else indexOfFrom pat cs (i + 1)

/-- JavaScript `s.indexOf(pat)`. -/
def indexOf (s pat : String) : Int := indexOfFrom pat.data s.data 0

/-! ## Harness -/

/-- An HTTP request as the scripts build it. -/
structure Request where
  method : String
  url : String
  body : Option String
  deriving Repr, DecidableEq

/-- What a script looks at in an HTTP response: `r.status`, `r.body` (`null`
when the request failed before a body was read) and the outcome of calling
`r.json()`: the parsed body when the body is JSON text, an exception when the
body is absent or is not JSON text. -/
structure Response where
  status : Int
  body : Option String
  json : Except JSError JSVal

/-- The part of the harness one virtual user's iteration can change. -/
structure VUState where
  /-- HTTP requests issued so far, oldest first. -/
  requests : List Request
  /-- Samples added to custom `Rate` metrics, oldest first, by metric name. -/
  samples : List (String × Bool)
  deriving Repr, DecidableEq

/-- What is outside a script: the environment, the files `open` can read, the
random source behind `randomIntBetween`, and the remote service. -/
structure World where
  env : Env
  openFile : String → String
  randomIntBetween : Nat → Nat → Nat
  send : Request → Response

/-- A named predicate handed to `check`. -/
abbrev Predicate := String × (Response → Except JSError Bool)

/-- Loop of k6 `check(val, sets)`: the predicates are called one after the
other, none is skipped because an earlier one was false, the result is the
conjunction of their values, and an exception thrown by a predicate is not
caught: it is rethrown to the caller of `check`. -/
def checkLoop (r : Response) : List Predicate → Bool → Except JSError Bool
  | [], succ => .ok succ
  | (_, p) :: rest, succ =>
    match p r with
    | .error e => .error e
    | .ok v => checkLoop r rest (succ && v)

/-- The k6 function `check(val, sets)`. -/
def check (r : Response) (sets : List Predicate) : Except JSError Bool :=
  checkLoop r sets true

/-- The k6 call `http.get(url)`: one request goes out, the response comes back. -/
def httpGet (w : World) (url : String) (st : VUState) : Response × VUState :=
  let req : Request := { method := "GET", url := url, body := none }
  (w.send req, { st with requests := st.requests ++ [req] })

/-- The k6 call `http.post(url, body)`. -/
def httpPost (w : World) (url : String) (body : String) (st : VUState) : Response × VUState :=
  let req : Request := { method := "POST", url := url, body := some body }
  (w.send req, { st with requests := st.requests ++ [req] })

/-- The k6 method `Rate.add(value)` of the metric called `metric`. -/
def rateAdd (metric : String) (value : Bool) (st : VUState) : VUState :=
  { st with samples := st.samples ++ [(metric, value)] }

/-- One entry of `options.stages`, with the comment line written above it and
the number of seconds that comment states for the stage. -/
structure Stage where
  target : Nat
  duration : String
  comment : String
  commentSeconds : Nat
  deriving Repr, DecidableEq

/-- One entry of a threshold list: the expression and the `abortOnFail` flag
(false for an entry written as a bare string). -/
structure Threshold where
  threshold : String
  abortOnFail : Bool
  deriving Repr, DecidableEq

/-- The exported `options` object. -/
structure Options where
  stages : List Stage
  /-- The comment closing the stage list, and the seconds it states. -/
  totalComment : String
  totalCommentSeconds : Nat
  thresholds : List (String × List Threshold)
  deriving Repr, DecidableEq

/-- Seconds in one unit letter of a duration string. -/
def unitSeconds (c : Char) : Option Nat :=
  if c = 'h' then some 3600
  else if c = 'm' then some 60
  else if c = 's' then some 1
  else none

/-- The value of a decimal digit character. -/
def digitValue (c : Char) : Option Nat :=
  if c = '0' then some 0 else if c = '1' then some 1 else if c = '2' then some 2
  else if c = '3' then some 3 else if c = '4' then some 4 else if c = '5' then some 5
  else if c = '6' then some 6 else if c = '7' then some 7 else if c = '8' then some 8
  else if c = '9' then some 9 else none

/-- Reader for the harness's duration strings such as `1m`, `3m45s`, `15s`:
a sequence of `<digits><unit>` groups.  `cur` is the number being read (none
before its first digit) and `acc` the seconds of the groups already read. -/
def parseDurationAux : List Char → Option Nat → Nat → Option Nat
  | [], none, acc => some acc
  | [], some _, _ => none
  | c :: cs, cur, acc =>
    match digitValue c with
    | some d => parseDurationAux cs (some (cur.getD 0 * 10 + d)) acc
    | none =>
      match cur, unitSeconds c with
      | some n, some u => parseDurationAux cs none (acc + n * u)
      | _, _ => none

/-- The length in seconds of a stage duration string (none when the string is
empty or is not whole hours, minutes and seconds). -/
def parseDuration (s : String) : Option Nat :=
  if s = "" then none else parseDurationAux s.data none 0

/-- A percentile threshold `p(N)<B`: the `N`th percentile of the metric has to
be less than `B` (milliseconds, for a duration metric). -/
structure PercentileBound where
  percentile : Nat
  bound : Nat
  deriving Repr, DecidableEq

/-- Read decimal digits up to the first other character. -/
def readNat : List Char → Nat → Nat × List Char
  | [], acc => (acc, [])
  | c :: cs, acc =>
    match digitValue c with
    | some d => readNat cs (acc * 10 + d)
    | none => (acc, c :: cs)

/-- Reader for threshold expressions of the form `p(N)<B`. -/
def parsePercentileBound (s : String) : Option PercentileBound :=
  match s.data with
  | c1 :: c2 :: rest =>
    if c1 = 'p' ∧ c2 = '(' then
      match readNat rest 0 with
      | (n, c3 :: c4 :: tl) =>
        if c3 = ')' ∧ c4 = '<' ∧ tl ≠ [] then
          match readNat tl 0 with
          | (b, []) => some ⟨n, b⟩
          | _ => none
        else none
      | _ => none
    else none
  | _ => none

/-- The threshold list declared for a metric, empty when there is none. -/
def Options.thresholdsFor (o : Options) (metric : String) : List Threshold :=
  (o.thresholds.lookup metric).getD []

/-- Whether `options.thresholds` has a key for the metric. -/
def Options.declares (o : Options) (metric : String) : Bool :=
  (o.thresholds.lookup metric).isSome

/-- Sum of the stage durations in seconds (none if one does not parse). -/
def totalSeconds : List Stage → Option Nat
  | [] => some 0
  | st :: rest =>
    match parseDuration st.duration, totalSeconds rest with
    | some a, some b => some (a + b)
    | _, _ => none

/-- The predicate `(r) => r.status === 200`. -/
def statusIs200 : Predicate :=
  ("status is 200", fun r => .ok (r.status == 200))

/-- The predicate `(r) => r.json().content_size === size`. -/
def contentSizeMatches (size : Nat) : Predicate :=
  ("content_size matches", fun r =>
    match r.json with
    | .error e => .error e
    | .ok v =>
      match getProp v "content_size" with
      | .error e => .error e
      | .ok x => .ok (strictEqNum x (size : Int)))

/-- The predicate `(r) => r.body.indexOf(pat) !== -1`. -/
def contentIsPresent (pat : String) : Predicate :=
  ("content is present", fun r =>
    match r.body with
    | none => .error (.typeError "Cannot read property indexOf of null")
    | some b => .ok (indexOf b pat != -1))

/-! ## `SyncGetBlobAsBytesReturnHttpResponse.js` -/

namespace SyncGetBlobAsBytesReturnHttpResponse

def HOSTNAME (env : Env) : String := jsOr (env "HOSTNAME") "localhost"

def PORT (env : Env) : String := jsOr (env "PORT") "80"

def PROTOCOL (env : Env) : String :=
  jsOr (env "PROTOCOL") (if PORT env = "80" then "http" else "https")

def INPUT_FILENAME : String := "Input_256MB"

def CONTENT_SIZE : Nat := 1024 * 1024 * 256

/-- Name of the custom metric behind `failureRate`. -/
def failureRate : String := "check_failure_rate"

def options : Options where
  stages := [
    { target := 20, duration := "1m",
      comment := "Linearly ramp up from 1 to 20 VUs during first minute",
      commentSeconds := 60 },
    { target := 20, duration := "3m45s",
      comment := "Hold at 20 VUs for the next 3 minutes and 45 seconds",
      commentSeconds := 225 },
    { target := 0, duration := "15s",
      comment := "Linearly ramp down from 20 to 0 VUs over the last 15 seconds",
      commentSeconds := 15 }]
  totalComment := "Total execution time will be ~5 minutes"
  totalCommentSeconds := 300
  thresholds := [
    ("http_req_duration", [{ threshold := "p(95)<40000", abortOnFail := false }]),
    ("check_failure_rate", [
      { threshold := "rate<0.01", abortOnFail := false },
      { threshold := "rate<=0.05", abortOnFail := true }])]

/-- The URL built by `setup`. -/
def setupUrl (env : Env) : String :=
  let no_random_input := true
  PROTOCOL env ++ "://" ++ HOSTNAME env ++ ":" ++ PORT env
    ++ "/api/SyncPutBlobAsBytesReturnHttpResponse?content_size=" ++ toString CONTENT_SIZE
    ++ "&no_random_input=" ++ toString no_random_input ++ "&outfile=" ++ INPUT_FILENAME

/-- The check set of `setup`. -/
def setupChecks : List Predicate := [statusIs200, contentSizeMatches CONTENT_SIZE]

/-- The exported `setup`: creates the blob later used as an input binding. -/
def setup (w : World) (st : VUState) : Except JSError Unit × VUState :=
  let sent := httpGet w (setupUrl w.env) st
  match check sent.1 setupChecks with
  | .error e => (.error e, sent.2)
  | .ok _ => (.ok (), sent.2)

/-- The URL built by the main function. -/
def url (env : Env) : String :=
  PROTOCOL env ++ "://" ++ HOSTNAME env ++ ":" ++ PORT env
    ++ "/api/SyncGetBlobAsBytesReturnHttpResponse?infile=" ++ INPUT_FILENAME

/-- The check set of the main function. -/
def checks : List Predicate := [statusIs200, contentSizeMatches CONTENT_SIZE]

/-- The exported default function. -/
def main (w : World) (st : VUState) : Except JSError Unit × VUState :=
  let sent := httpGet w (url w.env) st
  match check sent.1 checks with
  | .error e => (.error e, sent.2)
  | .ok checkRes => (.ok (), rateAdd failureRate (!checkRes) sent.2)

end SyncGetBlobAsBytesReturnHttpResponse

/-! ## `SyncHttpTriggerHelloWorld.js` -/

namespace SyncHttpTriggerHelloWorld

def HOSTNAME (env : Env) : String := jsOr (env "HOSTNAME") "localhost"

def PORT (env : Env) : String := jsOr (env "PORT") "80"

def PROTOCOL (env : Env) : String :=
  jsOr (env "PROTOCOL") (if PORT env = "80" then "http" else "https")

/-- Name of the custom metric behind `failureRate`. -/
def failureRate : String := "check_failure_rate"

def options : Options where
  stages := [
    { target := 100, duration := "30s",
      comment := "Linearly ramp up from 1 to 100 VUs during first minute",
      commentSeconds := 60 },
    { target := 100, duration := "1m15s",
      comment := "Hold at 100 VUs for the next 1 minutes and 15 seconds",
      commentSeconds := 75 },
    { target := 0, duration := "15s",
      comment := "Linearly ramp down from 100 to 0 50 VUs over the last 30 seconds",
      commentSeconds := 30 }]
  totalComment := "Total execution time will be ~2 minutes"
  totalCommentSeconds := 120
  thresholds := [
    ("http_req_duration", [{ threshold := "p(50)<5000", abortOnFail := false }])]

/-- The comment written above the `http_req_duration` threshold. -/
def durationComment : String :=
  "We want the 95th percentile of all HTTP request durations to be less than 500ms"

/-- The URL built by the main function. -/
def url (env : Env) : String :=
  PROTOCOL env ++ "://" ++ HOSTNAME env ++ ":" ++ PORT env ++ "/api/SyncHttpTriggerHelloWorld"

/-- The check set of the main function. -/
def checks : List Predicate := [statusIs200]

/-- The exported default function. -/
def main (w : World) (st : VUState) : Except JSError Unit × VUState :=
  let sent := httpGet w (url w.env) st
  match check sent.1 checks with
  | .error e => (.error e, sent.2)
  | .ok checkRes => (.ok (), rateAdd failureRate (!checkRes) sent.2)

end SyncHttpTriggerHelloWorld

/-! ## `SyncHttpTriggerHtmlParser.js` -/

namespace SyncHttpTriggerHtmlParser

def HOSTNAME (env : Env) : String := jsOr (env "HOSTNAME") "localhost"

def PORT (env : Env) : String := jsOr (env "PORT") "80"

def PROTOCOL (env : Env) : String :=
  jsOr (env "PROTOCOL") (if PORT env = "80" then "http" else "https")

/-- The module constant `fileContents = open('./largish_body.html')`. -/
def fileContents (w : World) : String := w.openFile "./largish_body.html"

/-- Name of the custom metric behind `failureRate`. -/
def failureRate : String := "check_failure_rate"

def options : Options where
  stages := [
    { target := 50, duration := "1m",
      comment := "Linearly ramp up from 1 to 50 VUs during first minute",
      commentSeconds := 60 },
    { target := 50, duration := "3m45s",
      comment := "Hold at 50 VUs for the next 3 minutes and 30 seconds",
      commentSeconds := 210 },
    { target := 0, duration := "15s",
      comment := "Linearly ramp down from 50 to 0 50 VUs over the last 30 seconds",
      commentSeconds := 30 }]
  totalComment := "Total execution time will be ~5 minutes"
  totalCommentSeconds := 300
  thresholds := [
    ("http_req_duration", [{ threshold := "p(95)<5000", abortOnFail := false }]),
    ("check_failure_rate", [
      { threshold := "rate<0.01", abortOnFail := false },
      { threshold := "rate<=0.05", abortOnFail := true }])]

/-- The comment written above the `http_req_duration` threshold. -/
def durationComment : String :=
  "We want the 95th percentile of all HTTP request durations to be less than 500ms"

/-- The URL built by the main function. -/
def url (env : Env) : String :=
  PROTOCOL env ++ "://" ++ HOSTNAME env ++ ":" ++ PORT env ++ "/api/SyncHttpTriggerHtmlParser"

/-- The check set of the main function. -/
def checks : List Predicate := [statusIs200, contentIsPresent "StartTagCount"]

/-- The exported default function. -/
def main (w : World) (st : VUState) : Except JSError Unit × VUState :=
  let sent := httpPost w (url w.env) (fileContents w) st
  match check sent.1 checks with
  | .error e => (.error e, sent.2)
  | .ok checkRes => (.ok (), rateAdd failureRate (!checkRes) sent.2)

end SyncHttpTriggerHtmlParser

/-! ## `SyncPutBlobAsBytesReturnHttpResponse.js` -/

namespace SyncPutBlobAsBytesReturnHttpResponse

def HOSTNAME (env : Env) : String := jsOr (env "HOSTNAME") "localhost"

def PORT (env : Env) : String := jsOr (env "PORT") "80"

def PROTOCOL (env : Env) : String :=
  jsOr (env "PROTOCOL") (if PORT env = "80" then "http" else "https")

/-- Name of the custom metric behind `failureRate`. -/
def failureRate : String := "check_failure_rate"

def options : Options where
  stages := [
    { target := 50, duration := "1m",
      comment := "Linearly ramp up from 1 to 50 VUs during first minute",
      commentSeconds := 60 },
    { target := 50, duration := "3m45s",
      comment := "Hold at 50 VUs for the next 3 minutes and 45 seconds",
      commentSeconds := 225 },
    { target := 0, duration := "15s",
      comment := "Linearly ramp down from 50 to 0 VUs over the last 15 seconds",
      commentSeconds := 15 }]
  totalComment := "Total execution time will be ~5 minutes"
  totalCommentSeconds := 300
  thresholds := [
    ("http_req_duration", [{ threshold := "p(95)<40000", abortOnFail := false }]),
    ("check_failure_rate", [
      { threshold := "rate<0.01", abortOnFail := false },
      { threshold := "rate<=0.05", abortOnFail := true }])]

/-- The local `content_size` of the main function. -/
def content_size : Nat := 1024 * 1024 * 256

/-- The URL built by the main function for a drawn `outfile`. -/
def url (env : Env) (outfile : Nat) : String :=
  let no_random_input := true
  PROTOCOL env ++ "://" ++ HOSTNAME env ++ ":" ++ PORT env
    ++ "/api/SyncPutBlobAsBytesReturnHttpResponse?content_size=" ++ toString content_size
    ++ "&no_random_input=" ++ toString no_random_input ++ "&outfile=" ++ toString outfile

/-- The check set of the main function. -/
def checks : List Predicate := [statusIs200, contentSizeMatches content_size]

/-- The exported default function. -/
def main (w : World) (st : VUState) : Except JSError Unit × VUState :=
  let outfile := w.randomIntBetween 1 500000
  let sent := httpGet w (url w.env outfile) st
  match check sent.1 checks with
  | .error e => (.error e, sent.2)
  | .ok checkRes => (.ok (), rateAdd failureRate (!checkRes) sent.2)

end SyncPutBlobAsBytesReturnHttpResponse

/-! ## The four scripts side by side -/

/-- The four scripts. -/
inductive Script where
  | getBlob
  | putBlob
  | helloWorld
  | htmlParser
  deriving Repr, DecidableEq

namespace Script

def HOSTNAME : Script → Env → String
  | getBlob => SyncGetBlobAsBytesReturnHttpResponse.HOSTNAME
  | putBlob => SyncPutBlobAsBytesReturnHttpResponse.HOSTNAME
  | helloWorld => SyncHttpTriggerHelloWorld.HOSTNAME
  | htmlParser => SyncHttpTriggerHtmlParser.HOSTNAME

def PORT : Script → Env → String
  | getBlob => SyncGetBlobAsBytesReturnHttpResponse.PORT
  | putBlob => SyncPutBlobAsBytesReturnHttpResponse.PORT
  | helloWorld => SyncHttpTriggerHelloWorld.PORT
  | htmlParser => SyncHttpTriggerHtmlParser.PORT

def PROTOCOL : Script → Env → String
  | getBlob => SyncGetBlobAsBytesReturnHttpResponse.PROTOCOL
  | putBlob => SyncPutBlobAsBytesReturnHttpResponse.PROTOCOL
  | helloWorld => SyncHttpTriggerHelloWorld.PROTOCOL
  | htmlParser => SyncHttpTriggerHtmlParser.PROTOCOL

def options : Script → Options
  | getBlob => SyncGetBlobAsBytesReturnHttpResponse.options
  | putBlob => SyncPutBlobAsBytesReturnHttpResponse.options
  | helloWorld => SyncHttpTriggerHelloWorld.options
  | htmlParser => SyncHttpTriggerHtmlParser.options

def failureRate : Script → String
  | getBlob => SyncGetBlobAsBytesReturnHttpResponse.failureRate
  | putBlob => SyncPutBlobAsBytesReturnHttpResponse.failureRate
  | helloWorld => SyncHttpTriggerHelloWorld.failureRate
  | htmlParser => SyncHttpTriggerHtmlParser.failureRate

def checks : Script → List Predicate
  | getBlob => SyncGetBlobAsBytesReturnHttpResponse.checks
  | putBlob => SyncPutBlobAsBytesReturnHttpResponse.checks
  | helloWorld => SyncHttpTriggerHelloWorld.checks
  | htmlParser => SyncHttpTriggerHtmlParser.checks

def main : Script → World → VUState → Except JSError Unit × VUState
  | getBlob => SyncGetBlobAsBytesReturnHttpResponse.main
  | putBlob => SyncPutBlobAsBytesReturnHttpResponse.main
  | helloWorld => SyncHttpTriggerHelloWorld.main
  | htmlParser => SyncHttpTriggerHtmlParser.main

end Script

/-! ## The request of a main function -/

/-- The request the main function of a script sends in world `w`. -/
def Script.request (s : Script) (w : World) : Request :=
  match s with
  | .getBlob =>
    { method := "GET", url := SyncGetBlobAsBytesReturnHttpResponse.url w.env, body := none }
  | .putBlob =>
    { method := "GET",
      url := SyncPutBlobAsBytesReturnHttpResponse.url w.env (w.randomIntBetween 1 500000),
      body := none }
  | .helloWorld =>
    { method := "GET", url := SyncHttpTriggerHelloWorld.url w.env, body := none }
  | .htmlParser =>
    { method := "POST", url := SyncHttpTriggerHtmlParser.url w.env,
      body := some (SyncHttpTriggerHtmlParser.fileContents w) }

/-- What follows `/api/` in the URL of a script's main request. -/
def Script.apiPath (s : Script) (w : World) : String :=
  match s with
  | .getBlob => "SyncGetBlobAsBytesReturnHttpResponse?infile=Input_256MB"
  | .putBlob =>
    "SyncPutBlobAsBytesReturnHttpResponse?content_size=268435456&no_random_input=true&outfile="
      ++ toString (w.randomIntBetween 1 500000)
  | .helloWorld => "SyncHttpTriggerHelloWorld"
  | .htmlParser => "SyncHttpTriggerHtmlParser"

/-! ## Concrete environments and services used as examples -/

/-- An environment in which only PORT is set, to `8080`. -/
def envPort8080 : Env := fun name => if name = "PORT" then some "8080" else none

/-- A world with nothing set in the environment, an empty file behind every
name, a random source that returns its lower bound, and the given service. -/
def worldOf (send : Request → Response) : World :=
  { env := fun _ => none, openFile := fun _ => "", randomIntBetween := fun lo _ => lo,
    send := send }

/-- A service that answers every request with status 200 and the JSON text
`null` as body, which `r.json()` parses to `null`. -/
def nullBodyService : Request → Response :=
  fun _ => { status := 200, body := some "null", json := .ok .null }

/-- A service that answers every request with status 502 and a plain-text
body, on which `r.json()` throws. -/
def badGatewayService : Request → Response :=
  fun _ => { status := 502, body := some "Bad Gateway",
             json := .error (.goError "invalid character B looking for beginning of value") }

/-- A service that answers every request with status 200 and the JSON object
holding `content_size: 268435456`. -/
def blobService : Request → Response :=
  fun _ => { status := 200, body := some "\x7b\"content_size\": 268435456\x7d",
             json := .ok (.obj [("content_size", .num 268435456)]) }

/-- A service that answers every request with status 200 and an HTML report
naming `StartTagCount`. -/
def parserService : Request → Response :=
  fun _ => { status := 200, body := some "StartTagCount: 3",
             json := .error (.goError "invalid character S looking for beginning of value") }

/-- The state of a virtual user before its first iteration. -/
def VUState.initial : VUState := { requests := [], samples := [] }

/-- Whether a predicate evaluates to true on a response (false when it is false
and when it throws). -/
def Predicate.holds (p : Predicate) (r : Response) : Bool :=
  match p.2 r with
  | .ok true => true
  | _ => false

/-! ## Reading URLs and option tables -/

/-- What follows the first occurrence of `c`, if there is one. -/
def afterFirst (c : Char) : List Char → Option (List Char)
  | [] => none
  | x :: xs => if x = c then some xs else afterFirst c xs

/-- What precedes the first occurrence of `c` (everything when there is none). -/
def beforeFirst (c : Char) : List Char → List Char
  | [] => []
  | x :: xs => if x = c then [] else x :: beforeFirst c xs

/-- The pieces of a list between the occurrences of `c`. -/
def splitOnChar (c : Char) : List Char → List (List Char)
  | [] => [[]]
  | x :: xs =>
    if x = c then [] :: splitOnChar c xs
    else
      match splitOnChar c xs with
      | [] => [[x]]
      | piece :: pieces => (x :: piece) :: pieces

/-- The query string of a URL: what follows its first `?`. -/
def queryString (url : String) : Option String :=
  (afterFirst '?' url.data).map String.mk

/-- The value of the first `key=value` pair of a query string with the given
key. -/
def queryParam (key : String) (query : String) : Option String :=
  ((splitOnChar '&' query.data).find? (fun kv => beforeFirst '=' kv == key.data)).bind
    (fun kv => (afterFirst '=' kv).map String.mk)

/-- Seconds of each stage, as the harness reads the `duration` strings. -/
def Options.stageSeconds (o : Options) : List (Option Nat) :=
  o.stages.map (fun st => parseDuration st.duration)

/-- Seconds of each stage, as the comments above the stages state them. -/
def Options.statedSeconds (o : Options) : List Nat :=
  o.stages.map (fun st => st.commentSeconds)

/-- The percentile thresholds declared for `http_req_duration`. -/
def Options.durationBounds (o : Options) : List (Option PercentileBound) :=
  (o.thresholdsFor "http_req_duration").map (fun t => parsePercentileBound t.threshold)

/-- The origin `PROTOCOL://HOSTNAME:PORT` a script puts in front of every
URL it builds. -/
def Script.origin (s : Script) (env : Env) : String :=
  s.PROTOCOL env ++ "://" ++ s.HOSTNAME env ++ ":" ++ s.PORT env

/-- What is left of a URL once the origin in front of it is taken away: the
path and the query, as they go on the request line. -/
def requestTarget (origin url : String) : String :=
  String.mk (url.data.drop origin.data.length)

/-- The value of a query parameter of a request target. -/
def targetParam (key : String) (target : String) : Option String :=
  (queryString target).bind (queryParam key)

/-- The request `setup` of the Get-blob script sends in world `w`. -/
def getBlobSetupRequest (w : World) : Request :=
  { method := "GET", url := SyncGetBlobAsBytesReturnHttpResponse.setupUrl w.env, body := none }

/-- An environment naming a host and a port. -/
def envFuncHost : Env := fun name =>
  if name = "HOSTNAME" then some "func.example"
  else if name = "PORT" then some "7071"
  else none

/-- A world with the environment `envFuncHost` and the given service. -/
def funcHostWorld (send : Request → Response) : World :=
  { env := envFuncHost, openFile := fun _ => "", randomIntBetween := fun _ hi => hi,
    send := send }

end K6

/-! # Theorems -/

namespace K6

/-! ## Configuration from the environment -/

theorem jsOr_of_unset (a : Option String) (b : String) (h : a = none ∨ a = some "") :
    jsOr a b = b := by
  rcases h with h | h <;> subst h <;> simp [jsOr]

theorem jsOr_of_set (a : Option String) (b v : String) (h : a = some v) (hv : v ≠ "") :
    jsOr a b = v := by
  subst h
  simp [jsOr, hv]

theorem Script.PORT_eq (s : Script) (env : Env) : s.PORT env = jsOr (env "PORT") "80" := by
  cases s <;> rfl

theorem Script.HOSTNAME_eq (s : Script) (env : Env) :
    s.HOSTNAME env = jsOr (env "HOSTNAME") "localhost" := by
  cases s <;> rfl

theorem Script.PROTOCOL_eq (s : Script) (env : Env) :
    s.PROTOCOL env = jsOr (env "PROTOCOL") (if s.PORT env = "80" then "http" else "https") := by
  cases s <;> rfl

/-- C1: in each of the four scripts and for every environment, the resolved
PROTOCOL is the environment's PROTOCOL when that is set and non-empty;
otherwise it is `http` when the resolved PORT is the string `80` and `https`
for every other resolved PORT; in particular an unset or empty PORT (with no
PROTOCOL given) yields `http`. -/
theorem protocol_resolution (s : Script) (env : Env) :
    (∀ p, env "PROTOCOL" = some p → p ≠ "" → s.PROTOCOL env = p)
    ∧ ((env "PROTOCOL" = none ∨ env "PROTOCOL" = some "") →
        (s.PORT env = "80" → s.PROTOCOL env = "http")
        ∧ (s.PORT env ≠ "80" → s.PROTOCOL env = "https"))
    ∧ ((env "PROTOCOL" = none ∨ env "PROTOCOL" = some "") →
        (env "PORT" = none ∨ env "PORT" = some "") → s.PROTOCOL env = "http") := by
  refine ⟨?_, ?_, ?_⟩
  · intro p hp hne
    rw [Script.PROTOCOL_eq]
    exact jsOr_of_set _ _ p hp hne
  · intro h
    rw [Script.PROTOCOL_eq, jsOr_of_unset _ _ h]
    constructor
    · intro h80
      simp [h80]
    · intro h80
      simp [h80]
  · intro h hport
    rw [Script.PROTOCOL_eq, jsOr_of_unset _ _ h, Script.PORT_eq, jsOr_of_unset _ _ hport]
    rfl

/-- C1 at concrete environments: nothing set gives `http`, PORT `8080` gives
`https`, and a given PROTOCOL wins over the port. -/
theorem protocol_resolution_witness :
    Script.PROTOCOL .helloWorld (fun _ => none) = "http"
    ∧ Script.PROTOCOL .putBlob envPort8080 = "https"
    ∧ Script.PROTOCOL .getBlob (fun _ => some "ftp") = "ftp" :=
  ⟨(protocol_resolution .helloWorld (fun _ => none)).2.2 (Or.inl rfl) (Or.inl rfl),
   ((protocol_resolution .putBlob envPort8080).2.1 (Or.inl rfl)).2 (by decide),
   (protocol_resolution .getBlob (fun _ => some "ftp")).1 "ftp" rfl (by decide)⟩

/-! ## One run of a main function -/

/-- Whatever the outcome, one run of a main function sends exactly the request
`Script.request` and nothing else. -/
theorem Script.main_requests (s : Script) (w : World) (st : VUState) :
    (s.main w st).2.requests = st.requests ++ [s.request w] := by
  cases s <;>
    simp only [Script.main, Script.request, SyncGetBlobAsBytesReturnHttpResponse.main,
      SyncPutBlobAsBytesReturnHttpResponse.main, SyncHttpTriggerHelloWorld.main,
      SyncHttpTriggerHtmlParser.main, httpGet, httpPost] <;>
    split <;> rfl

/-- A run whose check set evaluates to `checkRes` finishes normally and adds
the one sample `!checkRes` to the failure-rate metric. -/
theorem Script.main_of_check_ok (s : Script) (w : World) (st : VUState) (checkRes : Bool)
    (h : check (w.send (s.request w)) s.checks = .ok checkRes) :
    s.main w st =
      (.ok (), { requests := st.requests ++ [s.request w],
                 samples := st.samples ++ [(s.failureRate, !checkRes)] }) := by
  cases s <;>
    simp only [Script.main, Script.request, Script.checks, Script.failureRate,
      SyncGetBlobAsBytesReturnHttpResponse.main,
      SyncPutBlobAsBytesReturnHttpResponse.main, SyncHttpTriggerHelloWorld.main,
      SyncHttpTriggerHtmlParser.main, httpGet, httpPost, rateAdd] at h ⊢ <;>
    rw [h]

/-- A run in which a predicate throws ends with that exception and adds no
sample. -/
theorem Script.main_of_check_error (s : Script) (w : World) (st : VUState) (e : JSError)
    (h : check (w.send (s.request w)) s.checks = .error e) :
    s.main w st =
      (.error e, { requests := st.requests ++ [s.request w], samples := st.samples }) := by
  cases s <;>
    simp only [Script.main, Script.request, Script.checks, Script.failureRate,
      SyncGetBlobAsBytesReturnHttpResponse.main,
      SyncPutBlobAsBytesReturnHttpResponse.main, SyncHttpTriggerHelloWorld.main,
      SyncHttpTriggerHtmlParser.main, httpGet, httpPost, rateAdd] at h ⊢ <;>
    rw [h]

theorem Script.request_url (s : Script) (w : World) :
    (s.request w).url =
      s.PROTOCOL w.env ++ "://" ++ s.HOSTNAME w.env ++ ":" ++ s.PORT w.env ++ "/api/"
        ++ s.apiPath w := by
  cases s <;>
    simp only [Script.request, Script.apiPath, Script.PROTOCOL, Script.HOSTNAME, Script.PORT,
      SyncGetBlobAsBytesReturnHttpResponse.url, SyncPutBlobAsBytesReturnHttpResponse.url,
      SyncHttpTriggerHelloWorld.url, SyncHttpTriggerHtmlParser.url,
      SyncGetBlobAsBytesReturnHttpResponse.INPUT_FILENAME,
      SyncPutBlobAsBytesReturnHttpResponse.content_size, String.append_assoc] <;>
    rfl

/-- C2: in each of the four scripts and for every environment, HOSTNAME is
`localhost` when the environment's HOSTNAME is unset or empty and the
environment's value otherwise, PORT is `80` when the environment's PORT is
unset or empty and the environment's value otherwise, and the one request a
run of the main function sends has a URL that begins with
PROTOCOL ++ `://` ++ HOSTNAME ++ `:` ++ PORT ++ `/api/`. -/
theorem host_port_defaults_and_url (s : Script) (w : World) (st : VUState) :
    ((w.env "HOSTNAME" = none ∨ w.env "HOSTNAME" = some "") → s.HOSTNAME w.env = "localhost")
    ∧ (∀ h, w.env "HOSTNAME" = some h → h ≠ "" → s.HOSTNAME w.env = h)
    ∧ ((w.env "PORT" = none ∨ w.env "PORT" = some "") → s.PORT w.env = "80")
    ∧ (∀ p, w.env "PORT" = some p → p ≠ "" → s.PORT w.env = p)
    ∧ ∃ req rest,
        (s.main w st).2.requests = st.requests ++ [req]
        ∧ req.url =
            s.PROTOCOL w.env ++ "://" ++ s.HOSTNAME w.env ++ ":" ++ s.PORT w.env ++ "/api/"
              ++ rest := by
  refine ⟨?_, ?_, ?_, ?_, s.request w, s.apiPath w, s.main_requests w st, s.request_url w⟩
  · intro h
    rw [Script.HOSTNAME_eq, jsOr_of_unset _ _ h]
  · intro v hv hne
    rw [Script.HOSTNAME_eq]
    exact jsOr_of_set _ _ v hv hne
  · intro h
    rw [Script.PORT_eq, jsOr_of_unset _ _ h]
  · intro v hv hne
    rw [Script.PORT_eq]
    exact jsOr_of_set _ _ v hv hne

/-! ## `indexOf` finds contiguous substrings -/

theorem isPrefixOf_iff_append (pat s : List Char) :
    pat.isPrefixOf s = true ↔ ∃ post, s = pat ++ post := by
  induction pat generalizing s with
  | nil => simp
  | cons a as ih =>
    cases s with
    | nil => simp [List.isPrefixOf]
    | cons b bs =>
      simp only [List.isPrefixOf, Bool.and_eq_true, beq_iff_eq, ih, List.cons_append,
        List.cons.injEq]
      constructor
      · rintro ⟨rfl, post, rfl⟩
        exact ⟨post, rfl, rfl⟩
      · rintro ⟨post, rfl, rfl⟩
        exact ⟨rfl, post, rfl⟩

theorem indexOfFrom_ne_neg_one (pat s : List Char) (i : Nat) :
    indexOfFrom pat s i ≠ -1 ↔ ∃ pre post, s = pre ++ pat ++ post := by
  induction s generalizing i with
  | nil =>
    by_cases hp : pat = []
    · subst hp
      simp only [indexOfFrom, if_true]
      constructor
      · intro _
        exact ⟨[], [], rfl⟩
      · intro _
        omega
    · simp only [indexOfFrom, if_neg hp]
      constructor
      · intro h
        exact absurd rfl h
      · rintro ⟨pre, post, h⟩
        have h1 := congrArg List.length h
        simp only [List.length_nil, List.length_append] at h1
        have : pat.length = 0 := by omega
        exact absurd (List.length_eq_zero.mp this) hp
  | cons c cs ih =>
    by_cases hp : pat.isPrefixOf (c :: cs) = true
    · simp only [indexOfFrom, if_pos hp]
      constructor
      · intro _
        obtain ⟨post, hpost⟩ := (isPrefixOf_iff_append pat (c :: cs)).mp hp
        exact ⟨[], post, by simpa using hpost⟩
      · intro _
        omega
    · simp only [indexOfFrom, if_neg hp]
      rw [ih (i + 1)]
      constructor
      · rintro ⟨pre, post, h⟩
        exact ⟨c :: pre, post, by simp [h]⟩
      · rintro ⟨pre, post, h⟩
        cases pre with
        | nil =>
          exfalso
          apply hp
          exact (isPrefixOf_iff_append pat (c :: cs)).mpr ⟨post, by simpa using h⟩
        | cons d pre =>
          simp only [List.cons_append, List.cons.injEq] at h
          exact ⟨pre, post, h.2⟩

theorem indexOf_ne_neg_one (s pat : String) :
    indexOf s pat ≠ -1 ↔ ∃ pre post : String, s = pre ++ pat ++ post := by
  unfold indexOf
  rw [indexOfFrom_ne_neg_one]
  constructor
  · rintro ⟨pre, post, h⟩
    refine ⟨⟨pre⟩, ⟨post⟩, ?_⟩
    apply String.ext
    simpa [String.data_append] using h
  · rintro ⟨pre, post, h⟩
    refine ⟨pre.data, post.data, ?_⟩
    rw [h]
    simp [String.data_append]

/-! ## The check sets -/

/-- When no predicate throws, `check` returns the conjunction of the
predicates. -/
theorem checkLoop_ok (r : Response) (sets : List Predicate) (succ b : Bool)
    (h : checkLoop r sets succ = .ok b) :
    b = (succ && sets.all (fun p => p.holds r)) := by
  induction sets generalizing succ with
  | nil =>
    simp only [checkLoop, Except.ok.injEq] at h
    simp [h]
  | cons p rest ih =>
    obtain ⟨name, f⟩ := p
    simp only [checkLoop] at h
    cases hf : f r with
    | error e => simp [hf] at h
    | ok v =>
      rw [hf] at h
      rw [ih _ h]
      cases v <;> simp [Predicate.holds, hf, Bool.and_assoc]

theorem check_ok (r : Response) (sets : List Predicate) (b : Bool)
    (h : check r sets = .ok b) : b = sets.all (fun p => p.holds r) := by
  have := checkLoop_ok r sets true b h
  simpa using this

theorem helloWorld_check (r : Response) :
    check r SyncHttpTriggerHelloWorld.checks = .ok (r.status == 200) := by
  simp [check, checkLoop, SyncHttpTriggerHelloWorld.checks, statusIs200]

theorem htmlParser_check (r : Response) (b : String) (hb : r.body = some b) :
    check r SyncHttpTriggerHtmlParser.checks
      = .ok ((r.status == 200) && (indexOf b "StartTagCount" != -1)) := by
  simp [check, checkLoop, SyncHttpTriggerHtmlParser.checks, statusIs200, contentIsPresent, hb]

theorem blob_check_passes_iff (r : Response) (n : Nat) :
    check r [statusIs200, contentSizeMatches n] = .ok true ↔
      r.status = 200 ∧
        ∃ fields, r.json = .ok (.obj fields)
          ∧ fields.lookup "content_size" = some (.num (n : Int)) := by
  simp only [check, checkLoop, statusIs200, contentSizeMatches, Bool.true_and]
  cases hj : r.json with
  | error e => simp
  | ok v =>
    cases v with
    | obj fields =>
      cases hl : fields.lookup "content_size" with
      | none => simp [getProp, hl, strictEqNum]
      | some x => cases x <;> simp [getProp, hl, strictEqNum]
    | _ => simp [getProp, strictEqNum]

/-! ## Claims about one run of a main function -/

/-- C2 at the empty environment: the HelloWorld script resolves `localhost`
and `80`. -/
theorem host_port_defaults_and_url_witness :
    Script.HOSTNAME .helloWorld (worldOf nullBodyService).env = "localhost"
    ∧ Script.PORT .helloWorld (worldOf nullBodyService).env = "80" :=
  ⟨(host_port_defaults_and_url .helloWorld (worldOf nullBodyService) VUState.initial).1
      (Or.inl rfl),
   (host_port_defaults_and_url .helloWorld (worldOf nullBodyService) VUState.initial).2.2.1
      (Or.inl rfl)⟩

/-- C3, evaluated where it fails: in the Get-blob script a response with
status 200 whose body is the JSON text `null` makes the second predicate
throw a `TypeError`; the run ends with that exception after its one request
and adds no sample to `check_failure_rate`. -/
theorem getBlob_null_body_adds_no_sample :
    Script.main .getBlob (worldOf nullBodyService) VUState.initial =
      (.error (.typeError "Cannot read property content_size of null"),
       { requests := [{ method := "GET",
                        url := "http://localhost:80/api/SyncGetBlobAsBytesReturnHttpResponse?infile=Input_256MB",
                        body := none }],
         samples := [] }) := by
  rfl

/-- C4, evaluated where it fails: in the Put-blob script a 502 response whose
body is not JSON makes `r.json()` throw inside the second predicate; the run
ends with that exception and records no sample in `check_failure_rate`. -/
theorem putBlob_bad_gateway_raises :
    Script.main .putBlob (worldOf badGatewayService) VUState.initial =
      (.error (.goError "invalid character B looking for beginning of value"),
       { requests := [{ method := "GET",
                        url := "http://localhost:80/api/SyncPutBlobAsBytesReturnHttpResponse?content_size=268435456&no_random_input=true&outfile=1",
                        body := none }],
         samples := [] }) := by
  rfl

/-- In the HelloWorld script every run ends normally with exactly one new
sample, the negation of its single predicate. -/
theorem helloWorld_main (w : World) (st : VUState) :
    Script.main .helloWorld w st =
      (.ok (), { requests := st.requests ++ [Script.request .helloWorld w],
                 samples := st.samples ++
                   [("check_failure_rate",
                     !((w.send (Script.request .helloWorld w)).status == 200))] }) :=
  Script.main_of_check_ok .helloWorld w st _ (helloWorld_check _)

/-- Whenever the check set of a script evaluates without an exception, the
run adds exactly one sample, and it is true exactly when some predicate is
false. -/
theorem Script.main_sample_of_check_ok (s : Script) (w : World) (st : VUState) (checkRes : Bool)
    (h : check (w.send (s.request w)) s.checks = .ok checkRes) :
    (s.main w st).2.samples =
      st.samples ++ [("check_failure_rate",
        !(s.checks.all (fun p => p.holds (w.send (s.request w)))))] := by
  rw [Script.main_of_check_ok s w st checkRes h, check_ok _ _ _ h]
  cases s <;> rfl

theorem not_eq_false_iff (x : Bool) (P : Prop) (h : x = true ↔ P) : (!x) = false ↔ P := by
  cases x <;> simpa using h

/-- C6: in the HtmlParser script the one request is a POST to
`/api/SyncHttpTriggerHtmlParser` whose body is the contents of
`largish_body.html`, and for every response with a string body the run ends
normally with one sample `!checkRes`, where the check result is true if and
only if the status is 200 and `StartTagCount` is a contiguous substring of the
body. -/
theorem htmlParser_check_iff (w : World) (st : VUState) (b : String)
    (hbody :
      (w.send { method := "POST",
                url := SyncHttpTriggerHtmlParser.PROTOCOL w.env ++ "://"
                  ++ SyncHttpTriggerHtmlParser.HOSTNAME w.env ++ ":"
                  ++ SyncHttpTriggerHtmlParser.PORT w.env ++ "/api/SyncHttpTriggerHtmlParser",
                body := some (w.openFile "./largish_body.html") }).body = some b) :
    ∃ (req : Request) (checkRes : Bool),
      req = { method := "POST",
              url := SyncHttpTriggerHtmlParser.PROTOCOL w.env ++ "://"
                ++ SyncHttpTriggerHtmlParser.HOSTNAME w.env ++ ":"
                ++ SyncHttpTriggerHtmlParser.PORT w.env ++ "/api/SyncHttpTriggerHtmlParser",
              body := some (w.openFile "./largish_body.html") }
      ∧ check (w.send req) SyncHttpTriggerHtmlParser.checks = .ok checkRes
      ∧ SyncHttpTriggerHtmlParser.main w st =
          (.ok (), { requests := st.requests ++ [req],
                     samples := st.samples ++ [("check_failure_rate", !checkRes)] })
      ∧ (checkRes = true ↔
          (w.send req).status = 200 ∧ ∃ pre post : String, b = pre ++ "StartTagCount" ++ post)
      ∧ ((!checkRes) = false ↔
          (w.send req).status = 200 ∧ ∃ pre post : String, b = pre ++ "StartTagCount" ++ post) := by
  have hc := htmlParser_check _ b hbody
  have hiff : ((((w.send (Script.request .htmlParser w)).status == 200)
        && (indexOf b "StartTagCount" != -1)) = true) ↔
      (w.send (Script.request .htmlParser w)).status = 200
        ∧ ∃ pre post : String, b = pre ++ "StartTagCount" ++ post := by
    rw [Bool.and_eq_true, beq_iff_eq, bne_iff_ne, indexOf_ne_neg_one]
  exact ⟨_, _, rfl, hc, Script.main_of_check_ok .htmlParser w st _ hc, hiff,
    not_eq_false_iff _ _ hiff⟩

/-- C6 at a concrete service: a 200 response whose body names `StartTagCount`
passes the check, and the recorded sample is false. -/
theorem htmlParser_check_iff_witness :
    ∃ (req : Request) (checkRes : Bool),
      req = { method := "POST",
              url := SyncHttpTriggerHtmlParser.PROTOCOL (worldOf parserService).env ++ "://"
                ++ SyncHttpTriggerHtmlParser.HOSTNAME (worldOf parserService).env ++ ":"
                ++ SyncHttpTriggerHtmlParser.PORT (worldOf parserService).env
                ++ "/api/SyncHttpTriggerHtmlParser",
              body := some ((worldOf parserService).openFile "./largish_body.html") }
      ∧ check ((worldOf parserService).send req) SyncHttpTriggerHtmlParser.checks = .ok checkRes
      ∧ SyncHttpTriggerHtmlParser.main (worldOf parserService) VUState.initial =
          (.ok (), { requests := VUState.initial.requests ++ [req],
                     samples := VUState.initial.samples ++ [("check_failure_rate", !checkRes)] })
      ∧ (checkRes = true ↔
          ((worldOf parserService).send req).status = 200
            ∧ ∃ pre post : String, "StartTagCount: 3" = pre ++ "StartTagCount" ++ post)
      ∧ ((!checkRes) = false ↔
          ((worldOf parserService).send req).status = 200
            ∧ ∃ pre post : String, "StartTagCount: 3" = pre ++ "StartTagCount" ++ post) :=
  htmlParser_check_iff (worldOf parserService) VUState.initial "StartTagCount: 3" rfl

theorem afterFirst_append (c : Char) (a q : List Char) (h : c ∉ a) :
    afterFirst c (a ++ c :: q) = some q := by
  induction a with
  | nil => simp [afterFirst]
  | cons x xs ih =>
    have hx : x ≠ c := fun e => h (by simp [e])
    have hxs : c ∉ xs := fun e => h (by simp [e])
    simp [afterFirst, hx, ih hxs]

/-- When no `?` occurs in the origin, the query string of the Put-blob URL is
the `content_size`, `no_random_input`, `outfile` triple. -/
theorem putBlob_queryString (env : Env) (outfile : Nat)
    (h : '?' ∉ (SyncPutBlobAsBytesReturnHttpResponse.PROTOCOL env ++ "://"
            ++ SyncPutBlobAsBytesReturnHttpResponse.HOSTNAME env ++ ":"
            ++ SyncPutBlobAsBytesReturnHttpResponse.PORT env).data) :
    queryString (SyncPutBlobAsBytesReturnHttpResponse.url env outfile) =
      some ("content_size=268435456&no_random_input=true&outfile=" ++ toString outfile) := by
  have hurl : (SyncPutBlobAsBytesReturnHttpResponse.url env outfile).data =
      ((SyncPutBlobAsBytesReturnHttpResponse.PROTOCOL env ++ "://"
            ++ SyncPutBlobAsBytesReturnHttpResponse.HOSTNAME env ++ ":"
            ++ SyncPutBlobAsBytesReturnHttpResponse.PORT env).data
          ++ "/api/SyncPutBlobAsBytesReturnHttpResponse".data)
        ++ '?' :: ("content_size=268435456&no_random_input=true&outfile="
            ++ toString outfile).data := by
    simp only [SyncPutBlobAsBytesReturnHttpResponse.url, String.data_append,
      List.append_assoc]
    rfl
  have hno : '?' ∉ (SyncPutBlobAsBytesReturnHttpResponse.PROTOCOL env ++ "://"
            ++ SyncPutBlobAsBytesReturnHttpResponse.HOSTNAME env ++ ":"
            ++ SyncPutBlobAsBytesReturnHttpResponse.PORT env).data
          ++ "/api/SyncPutBlobAsBytesReturnHttpResponse".data := by
    intro hmem
    rcases List.mem_append.mp hmem with h1 | h2
    · exact h h1
    · revert h2
      decide
  rw [queryString, hurl, afterFirst_append _ _ _ hno]
  rfl

/-! ## The exported options -/

/-- C5 fails as stated: the HelloWorld script declares no threshold on
`check_failure_rate` (the block is commented out in its source). -/
theorem helloWorld_declares_no_failure_threshold :
    (Script.options .helloWorld).declares "check_failure_rate" = false
    ∧ (Script.options .helloWorld).thresholds.map (fun t => t.1) = ["http_req_duration"] := by
  decide

/-- C5, amended: every script declares a threshold on `http_req_duration`;
the Get-blob, Put-blob and HtmlParser scripts also declare thresholds on
`check_failure_rate`, namely `rate<0.01` and an abort-on-fail `rate<=0.05`,
while the HelloWorld script declares none on that metric. -/
theorem thresholds_declared (s : Script) :
    s.options.declares "http_req_duration" = true
    ∧ s.options.thresholdsFor "http_req_duration" ≠ []
    ∧ s.options.declares "check_failure_rate" = (s != Script.helloWorld)
    ∧ s.options.thresholdsFor "check_failure_rate" =
        (if s = Script.helloWorld then []
         else [{ threshold := "rate<0.01", abortOnFail := false },
               { threshold := "rate<=0.05", abortOnFail := true }]) := by
  cases s <;> decide

/-- C8, evaluated where it fails: the HelloWorld script bounds the 50th
percentile, by 5000 ms, and the HtmlParser script bounds the 95th percentile
by 5000 ms; neither declares the bound of 500 ms on the 95th percentile that
the comment above the threshold states. -/
theorem duration_thresholds_against_comment :
    (Script.options .helloWorld).durationBounds = [some { percentile := 50, bound := 5000 }]
    ∧ (Script.options .htmlParser).durationBounds = [some { percentile := 95, bound := 5000 }]
    ∧ SyncHttpTriggerHelloWorld.durationComment =
        "We want the 95th percentile of all HTTP request durations to be less than 500ms"
    ∧ SyncHttpTriggerHtmlParser.durationComment =
        "We want the 95th percentile of all HTTP request durations to be less than 500ms"
    ∧ parsePercentileBound "p(95)<500" = some { percentile := 95, bound := 500 }
    ∧ (Script.options .helloWorld).durationBounds ≠ [parsePercentileBound "p(95)<500"]
    ∧ (Script.options .htmlParser).durationBounds ≠ [parsePercentileBound "p(95)<500"] := by
  decide

/-- C10, evaluated where it fails: the HtmlParser stages last 60 s, 225 s and
15 s while the comments above them state 60 s, 210 s and 30 s, and the
HelloWorld stages last 30 s, 75 s and 15 s while the comments state 60 s, 75 s
and 30 s. -/
theorem stage_durations_against_comments :
    (Script.options .htmlParser).stageSeconds = [some 60, some 225, some 15]
    ∧ (Script.options .htmlParser).statedSeconds = [60, 210, 30]
    ∧ (Script.options .helloWorld).stageSeconds = [some 30, some 75, some 15]
    ∧ (Script.options .helloWorld).statedSeconds = [60, 75, 30] := by
  decide

/-- The part of C10 that holds in every script: the targets are `N, N, 0`
with `N` positive, and the stage durations add up to the stated total, 120 s
for HelloWorld and 300 s for the other three. -/
theorem stages_shape_and_total (s : Script) :
    (∃ n, 0 < n ∧ s.options.stages.map (fun st => st.target) = [n, n, 0])
    ∧ totalSeconds s.options.stages = some s.options.totalCommentSeconds
    ∧ s.options.totalCommentSeconds = (if s = Script.helloWorld then 120 else 300) := by
  cases s
  · exact ⟨⟨20, by decide, by decide⟩, by decide, by decide⟩
  · exact ⟨⟨50, by decide, by decide⟩, by decide, by decide⟩
  · exact ⟨⟨100, by decide, by decide⟩, by decide, by decide⟩
  · exact ⟨⟨50, by decide, by decide⟩, by decide, by decide⟩

/-- In the Get-blob and Put-blob scripts every stage lasts as long as the
comment above it states. -/
theorem blob_stage_durations_match_comments :
    (Script.options .getBlob).stageSeconds = (Script.options .getBlob).statedSeconds.map some
    ∧ (Script.options .putBlob).stageSeconds
        = (Script.options .putBlob).statedSeconds.map some := by
  decide

/-! ## Further facts about the blob scripts -/

/-- In both blob scripts any response on which `r.json()` throws ends the run
with that exception, whatever its status, and no sample is added. -/
theorem blob_main_of_json_error (w : World) (st : VUState) (e : JSError) :
    ((w.send (Script.request .getBlob w)).json = .error e →
      Script.main .getBlob w st =
        (.error e, { requests := st.requests ++ [Script.request .getBlob w],
                     samples := st.samples }))
    ∧ ((w.send (Script.request .putBlob w)).json = .error e →
      Script.main .putBlob w st =
        (.error e, { requests := st.requests ++ [Script.request .putBlob w],
                     samples := st.samples })) := by
  constructor <;>
    intro h <;>
    apply Script.main_of_check_error <;>
    simp [check, checkLoop, Script.checks, SyncGetBlobAsBytesReturnHttpResponse.checks,
      SyncPutBlobAsBytesReturnHttpResponse.checks, statusIs200, contentSizeMatches, h]

/-- On a 200 response carrying the expected `content_size` the Put-blob run
ends normally and records the sample `false`. -/
theorem putBlob_passes_on_blob_service :
    Script.main .putBlob (worldOf blobService) VUState.initial =
      (.ok (),
       { requests := [{ method := "GET",
                        url := "http://localhost:80/api/SyncPutBlobAsBytesReturnHttpResponse?content_size=268435456&no_random_input=true&outfile=1",
                        body := none }],
         samples := [("check_failure_rate", false)] }) := by
  rfl

/-- At the default environment the query string of the Put-blob URL is read
back from the URL itself. -/
theorem putBlob_queryString_default (outfile : Nat) :
    queryString (SyncPutBlobAsBytesReturnHttpResponse.url (fun _ => none) outfile) =
      some ("content_size=268435456&no_random_input=true&outfile=" ++ toString outfile) :=
  putBlob_queryString (fun _ => none) outfile (by decide)

/-! ## The blob scripts: what is requested and what is validated -/

/-- A run of a main function is decided by its check set: an exception of a
predicate ends the run, a check result `c` is recorded as the sample `!c`. -/
theorem Script.main_eq (s : Script) (w : World) (st : VUState) :
    s.main w st =
      (match check (w.send (s.request w)) s.checks with
       | .error e =>
         (.error e, { requests := st.requests ++ [s.request w], samples := st.samples })
       | .ok c =>
         (.ok (), { requests := st.requests ++ [s.request w],
                    samples := st.samples ++ [(s.failureRate, !c)] })) := by
  cases h : check (w.send (s.request w)) s.checks with
  | error e => exact Script.main_of_check_error s w st e h
  | ok c => exact Script.main_of_check_ok s w st c h

/-- A run records the sample `false`, a passed check, exactly when its check
set evaluates to true. -/
theorem Script.main_pass_iff (s : Script) (w : World) (st : VUState) :
    s.main w st =
        (.ok (), { requests := st.requests ++ [s.request w],
                   samples := st.samples ++ [(s.failureRate, false)] })
      ↔ check (w.send (s.request w)) s.checks = .ok true := by
  constructor
  · intro h
    cases hc : check (w.send (s.request w)) s.checks with
    | error e =>
      rw [Script.main_of_check_error s w st e hc] at h
      simp at h
    | ok c =>
      rw [Script.main_of_check_ok s w st c hc] at h
      cases c
      · simp at h
      · rfl
  · intro h
    exact Script.main_of_check_ok s w st true h

/-- On a parsed body other than `null` the blob check set never throws. -/
theorem blob_check_of_json (r : Response) (n : Nat) (v : JSVal) (hj : r.json = .ok v)
    (hnull : v ≠ .null) (hundef : v ≠ .undefined) :
    ∃ c, check r [statusIs200, contentSizeMatches n] = .ok c := by
  simp only [check, checkLoop, statusIs200, contentSizeMatches, hj]
  cases v with
  | null => exact absurd rfl hnull
  | undefined => exact absurd rfl hundef
  | obj fields =>
    cases hl : fields.lookup "content_size" with
    | none => simp [getProp, hl]
    | some x => simp [getProp, hl]
  | _ => simp [getProp]

theorem requestTarget_append (origin rest : String) :
    requestTarget origin (origin ++ rest) = rest := by
  simp [requestTarget, String.data_append]

theorem afterFirst_append_of_not_mem (c : Char) (a b : List Char) (h : c ∉ a) :
    afterFirst c (a ++ b) = afterFirst c b := by
  induction a with
  | nil => rfl
  | cons x xs ih =>
    have hx : x ≠ c := fun e => h (by simp [e])
    have hxs : c ∉ xs := fun e => h (by simp [e])
    simp [afterFirst, hx, ih hxs]

theorem queryString_append_of_not_mem (origin rest : String) (h : '?' ∉ origin.data) :
    queryString (origin ++ rest) = queryString rest := by
  simp only [queryString, String.data_append]
  rw [afterFirst_append_of_not_mem _ _ _ h]

theorem queryString_path (path q : String) (h : '?' ∉ path.data) :
    queryString (path ++ ("?" ++ q)) = some q := by
  have hd : (path ++ ("?" ++ q)).data = path.data ++ '?' :: q.data := by
    simp only [String.data_append]
    rfl
  rw [queryString, hd, afterFirst_append _ _ _ h]
  rfl

theorem putBlob_url_eq (env : Env) (outfile : Nat) :
    SyncPutBlobAsBytesReturnHttpResponse.url env outfile =
      Script.origin .putBlob env ++
        ("/api/SyncPutBlobAsBytesReturnHttpResponse" ++
          ("?" ++ ("content_size=268435456&no_random_input=true&outfile="
            ++ toString outfile))) := by
  simp only [SyncPutBlobAsBytesReturnHttpResponse.url, Script.origin, Script.PROTOCOL,
    Script.HOSTNAME, Script.PORT, SyncPutBlobAsBytesReturnHttpResponse.content_size,
    String.append_assoc]
  rfl

/-- C7: in the Put-blob script the main function sends one GET whose URL is
the origin, the path `/api/SyncPutBlobAsBytesReturnHttpResponse`, a `?`, and
the query `content_size=268435456&no_random_input=true&outfile=` followed by
the drawn outfile in decimal, where 268435456 = 1024 * 1024 * 256 is the local
`content_size`; the run is decided by the check on the response to that
request: the check passes, and the run records the sample `false`, if and only
if the status is 200 and the parsed JSON body is an object whose
`content_size` is that same number, and on every parsed body other than
`null` the run ends normally with the one sample `!checkRes`. -/
theorem putBlob_query_and_check (w : World) (st : VUState) :
    Script.request .putBlob w =
        { method := "GET",
          url := Script.origin .putBlob w.env ++ "/api/SyncPutBlobAsBytesReturnHttpResponse"
            ++ "?" ++ ("content_size=268435456&no_random_input=true&outfile="
                ++ toString (w.randomIntBetween 1 500000)),
          body := none }
    ∧ Script.origin .putBlob w.env =
        SyncPutBlobAsBytesReturnHttpResponse.PROTOCOL w.env ++ "://"
          ++ SyncPutBlobAsBytesReturnHttpResponse.HOSTNAME w.env ++ ":"
          ++ SyncPutBlobAsBytesReturnHttpResponse.PORT w.env
    ∧ queryString (requestTarget (Script.origin .putBlob w.env) (Script.request .putBlob w).url)
        = some ("content_size=268435456&no_random_input=true&outfile="
            ++ toString (w.randomIntBetween 1 500000))
    ∧ ('?' ∉ (Script.origin .putBlob w.env).data →
        queryString (Script.request .putBlob w).url
          = some ("content_size=268435456&no_random_input=true&outfile="
              ++ toString (w.randomIntBetween 1 500000)))
    ∧ SyncPutBlobAsBytesReturnHttpResponse.content_size = 1024 * 1024 * 256
    ∧ toString SyncPutBlobAsBytesReturnHttpResponse.content_size = "268435456"
    ∧ SyncPutBlobAsBytesReturnHttpResponse.main w st =
        (match check (w.send (Script.request .putBlob w))
            SyncPutBlobAsBytesReturnHttpResponse.checks with
         | .error e =>
           (.error e, { requests := st.requests ++ [Script.request .putBlob w],
                        samples := st.samples })
         | .ok c =>
           (.ok (), { requests := st.requests ++ [Script.request .putBlob w],
                      samples := st.samples ++ [("check_failure_rate", !c)] }))
    ∧ (check (w.send (Script.request .putBlob w)) SyncPutBlobAsBytesReturnHttpResponse.checks
          = .ok true ↔
        (w.send (Script.request .putBlob w)).status = 200
          ∧ ∃ fields, (w.send (Script.request .putBlob w)).json = .ok (.obj fields)
              ∧ fields.lookup "content_size" = some (.num 268435456))
    ∧ (SyncPutBlobAsBytesReturnHttpResponse.main w st =
          (.ok (), { requests := st.requests ++ [Script.request .putBlob w],
                     samples := st.samples ++ [("check_failure_rate", false)] }) ↔
        (w.send (Script.request .putBlob w)).status = 200
          ∧ ∃ fields, (w.send (Script.request .putBlob w)).json = .ok (.obj fields)
              ∧ fields.lookup "content_size" = some (.num 268435456))
    ∧ (∀ v, (w.send (Script.request .putBlob w)).json = .ok v → v ≠ .null → v ≠ .undefined →
        ∃ checkRes,
          SyncPutBlobAsBytesReturnHttpResponse.main w st =
            (.ok (), { requests := st.requests ++ [Script.request .putBlob w],
                       samples := st.samples ++ [("check_failure_rate", !checkRes)] })
          ∧ (checkRes = true ↔
              (w.send (Script.request .putBlob w)).status = 200
                ∧ ∃ fields, v = .obj fields
                    ∧ fields.lookup "content_size" = some (.num 268435456))) := by
  have hpass := blob_check_passes_iff (w.send (Script.request .putBlob w))
    SyncPutBlobAsBytesReturnHttpResponse.content_size
  refine ⟨?_, rfl, ?_, ?_, rfl, rfl, Script.main_eq .putBlob w st, hpass,
    (Script.main_pass_iff .putBlob w st).trans hpass, ?_⟩
  · simp only [Script.request, putBlob_url_eq, String.append_assoc]
  · simp only [Script.request, putBlob_url_eq, requestTarget_append]
    exact queryString_path _ _ (by decide)
  · intro h
    simp only [Script.request, putBlob_url_eq]
    rw [queryString_append_of_not_mem _ _ h]
    exact queryString_path _ _ (by decide)
  · intro v hv hnull hundef
    obtain ⟨c, hc⟩ := blob_check_of_json _ SyncPutBlobAsBytesReturnHttpResponse.content_size
      v hv hnull hundef
    refine ⟨c, Script.main_of_check_ok .putBlob w st c hc, ?_⟩
    have h1 : c = true ↔ check (w.send (Script.request .putBlob w))
        SyncPutBlobAsBytesReturnHttpResponse.checks = .ok true := by
      rw [show check (w.send (Script.request .putBlob w))
        SyncPutBlobAsBytesReturnHttpResponse.checks = .ok c from hc]
      simp
    refine h1.trans (hpass.trans ?_)
    rw [hv]
    simp only [Except.ok.injEq, JSVal.obj.injEq, exists_eq_left']
    constructor
    · rintro ⟨hs, fields, rfl, hl⟩
      exact ⟨hs, fields, rfl, hl⟩
    · rintro ⟨hs, fields, rfl, hl⟩
      exact ⟨hs, fields, rfl, hl⟩

/-- C7 at a concrete service: a 200 response whose JSON object carries
`content_size: 268435456` makes the run record the sample `false`, and the
query string read off the URL names the drawn outfile. -/
theorem putBlob_query_and_check_witness :
    SyncPutBlobAsBytesReturnHttpResponse.main (funcHostWorld blobService) VUState.initial =
        (.ok (), { requests := VUState.initial.requests
                     ++ [Script.request .putBlob (funcHostWorld blobService)],
                   samples := VUState.initial.samples ++ [("check_failure_rate", false)] })
    ∧ queryString (Script.request .putBlob (funcHostWorld blobService)).url
        = some ("content_size=268435456&no_random_input=true&outfile="
            ++ toString ((funcHostWorld blobService).randomIntBetween 1 500000)) :=
  ⟨(putBlob_query_and_check (funcHostWorld blobService) VUState.initial).2.2.2.2.2.2.2.2.1.mpr
      ⟨rfl, [("content_size", .num 268435456)], rfl, rfl⟩,
   (putBlob_query_and_check (funcHostWorld blobService) VUState.initial).2.2.2.1 (by decide)⟩

theorem getBlob_setupUrl_eq (env : Env) :
    SyncGetBlobAsBytesReturnHttpResponse.setupUrl env =
      Script.origin .getBlob env ++
        "/api/SyncPutBlobAsBytesReturnHttpResponse?content_size=268435456&no_random_input=true&outfile=Input_256MB" := by
  simp only [SyncGetBlobAsBytesReturnHttpResponse.setupUrl, Script.origin, Script.PROTOCOL,
    Script.HOSTNAME, Script.PORT, SyncGetBlobAsBytesReturnHttpResponse.CONTENT_SIZE,
    SyncGetBlobAsBytesReturnHttpResponse.INPUT_FILENAME, String.append_assoc]
  rfl

theorem getBlob_url_eq (env : Env) :
    SyncGetBlobAsBytesReturnHttpResponse.url env =
      Script.origin .getBlob env ++
        "/api/SyncGetBlobAsBytesReturnHttpResponse?infile=Input_256MB" := by
  simp only [SyncGetBlobAsBytesReturnHttpResponse.url, Script.origin, Script.PROTOCOL,
    Script.HOSTNAME, Script.PORT, SyncGetBlobAsBytesReturnHttpResponse.INPUT_FILENAME,
    String.append_assoc]
  rfl

theorem targetParam_append_of_not_mem (key origin rest : String) (h : '?' ∉ origin.data) :
    targetParam key (origin ++ rest) = targetParam key rest := by
  simp only [targetParam, queryString_append_of_not_mem _ _ h]

/-- C9: in the Get-blob script `setup` sends one GET for
`/api/SyncPutBlobAsBytesReturnHttpResponse` and the main function one GET for
`/api/SyncGetBlobAsBytesReturnHttpResponse`, from the same origin; read off
the two URLs, the `outfile` parameter of the first and the `infile` parameter
of the second are both INPUT_FILENAME, `Input_256MB`, and the `content_size`
parameter of the first is CONTENT_SIZE, 268435456; the run of the main
function is decided by its check on the response: it passes, and the sample
`false` is recorded, if and only if the status is 200 and the parsed JSON body
is an object whose `content_size` is that same CONTENT_SIZE. -/
theorem getBlob_setup_matches_main (w : World) (st : VUState) :
    (SyncGetBlobAsBytesReturnHttpResponse.setup w st).2 =
        { requests := st.requests ++ [getBlobSetupRequest w], samples := st.samples }
    ∧ getBlobSetupRequest w =
        { method := "GET",
          url := Script.origin .getBlob w.env ++ "/api/SyncPutBlobAsBytesReturnHttpResponse"
            ++ "?" ++ "content_size=268435456&no_random_input=true&outfile=Input_256MB",
          body := none }
    ∧ Script.request .getBlob w =
        { method := "GET",
          url := Script.origin .getBlob w.env ++ "/api/SyncGetBlobAsBytesReturnHttpResponse"
            ++ "?" ++ "infile=Input_256MB",
          body := none }
    ∧ Script.origin .getBlob w.env =
        SyncGetBlobAsBytesReturnHttpResponse.PROTOCOL w.env ++ "://"
          ++ SyncGetBlobAsBytesReturnHttpResponse.HOSTNAME w.env ++ ":"
          ++ SyncGetBlobAsBytesReturnHttpResponse.PORT w.env
    ∧ targetParam "outfile"
          (requestTarget (Script.origin .getBlob w.env) (getBlobSetupRequest w).url)
        = some SyncGetBlobAsBytesReturnHttpResponse.INPUT_FILENAME
    ∧ targetParam "infile"
          (requestTarget (Script.origin .getBlob w.env) (Script.request .getBlob w).url)
        = some SyncGetBlobAsBytesReturnHttpResponse.INPUT_FILENAME
    ∧ targetParam "content_size"
          (requestTarget (Script.origin .getBlob w.env) (getBlobSetupRequest w).url)
        = some (toString SyncGetBlobAsBytesReturnHttpResponse.CONTENT_SIZE)
    ∧ ('?' ∉ (Script.origin .getBlob w.env).data →
        targetParam "outfile" (getBlobSetupRequest w).url
            = some SyncGetBlobAsBytesReturnHttpResponse.INPUT_FILENAME
        ∧ targetParam "infile" (Script.request .getBlob w).url
            = some SyncGetBlobAsBytesReturnHttpResponse.INPUT_FILENAME
        ∧ targetParam "content_size" (getBlobSetupRequest w).url
            = some (toString SyncGetBlobAsBytesReturnHttpResponse.CONTENT_SIZE))
    ∧ SyncGetBlobAsBytesReturnHttpResponse.INPUT_FILENAME = "Input_256MB"
    ∧ SyncGetBlobAsBytesReturnHttpResponse.CONTENT_SIZE = 268435456
    ∧ SyncGetBlobAsBytesReturnHttpResponse.main w st =
        (match check (w.send (Script.request .getBlob w))
            SyncGetBlobAsBytesReturnHttpResponse.checks with
         | .error e =>
           (.error e, { requests := st.requests ++ [Script.request .getBlob w],
                        samples := st.samples })
         | .ok c =>
           (.ok (), { requests := st.requests ++ [Script.request .getBlob w],
                      samples := st.samples ++ [("check_failure_rate", !c)] }))
    ∧ (check (w.send (Script.request .getBlob w)) SyncGetBlobAsBytesReturnHttpResponse.checks
          = .ok true ↔
        (w.send (Script.request .getBlob w)).status = 200
          ∧ ∃ fields, (w.send (Script.request .getBlob w)).json = .ok (.obj fields)
              ∧ fields.lookup "content_size"
                  = some (.num (SyncGetBlobAsBytesReturnHttpResponse.CONTENT_SIZE : Int)))
    ∧ (SyncGetBlobAsBytesReturnHttpResponse.main w st =
          (.ok (), { requests := st.requests ++ [Script.request .getBlob w],
                     samples := st.samples ++ [("check_failure_rate", false)] }) ↔
        (w.send (Script.request .getBlob w)).status = 200
          ∧ ∃ fields, (w.send (Script.request .getBlob w)).json = .ok (.obj fields)
              ∧ fields.lookup "content_size"
                  = some (.num (SyncGetBlobAsBytesReturnHttpResponse.CONTENT_SIZE : Int))) := by
  have hpass := blob_check_passes_iff (w.send (Script.request .getBlob w))
    SyncGetBlobAsBytesReturnHttpResponse.CONTENT_SIZE
  refine ⟨?_, ?_, ?_, rfl, ?_, ?_, ?_, ?_, rfl, rfl, Script.main_eq .getBlob w st, hpass,
    (Script.main_pass_iff .getBlob w st).trans hpass⟩
  · simp only [SyncGetBlobAsBytesReturnHttpResponse.setup, httpGet, getBlobSetupRequest]
    split <;> rfl
  · simp only [getBlobSetupRequest, getBlob_setupUrl_eq, String.append_assoc]
    rfl
  · simp only [Script.request, getBlob_url_eq, String.append_assoc]
    rfl
  · simp only [getBlobSetupRequest, getBlob_setupUrl_eq, requestTarget_append]
    rfl
  · simp only [Script.request, getBlob_url_eq, requestTarget_append]
    rfl
  · simp only [getBlobSetupRequest, getBlob_setupUrl_eq, requestTarget_append]
    rfl
  · intro h
    simp only [getBlobSetupRequest, Script.request, getBlob_setupUrl_eq, getBlob_url_eq,
      targetParam_append_of_not_mem _ _ _ h]
    exact ⟨rfl, rfl, rfl⟩

/-- C9 at a concrete environment and service: with HOSTNAME `func.example` and
PORT `7071` the parameters read off the two URLs are `Input_256MB`, and a 200
response carrying `content_size: 268435456` makes the main run record the
sample `false`. -/
theorem getBlob_setup_matches_main_witness :
    (targetParam "outfile" (getBlobSetupRequest (funcHostWorld blobService)).url
        = some "Input_256MB"
      ∧ targetParam "infile" (Script.request .getBlob (funcHostWorld blobService)).url
        = some "Input_256MB"
      ∧ targetParam "content_size" (getBlobSetupRequest (funcHostWorld blobService)).url
        = some "268435456")
    ∧ SyncGetBlobAsBytesReturnHttpResponse.main (funcHostWorld blobService) VUState.initial =
        (.ok (), { requests := VUState.initial.requests
                     ++ [Script.request .getBlob (funcHostWorld blobService)],
                   samples := VUState.initial.samples ++ [("check_failure_rate", false)] }) :=
  ⟨(getBlob_setup_matches_main (funcHostWorld blobService) VUState.initial).2.2.2.2.2.2.2.1
      (by decide),
   (getBlob_setup_matches_main (funcHostWorld blobService)
      VUState.initial).2.2.2.2.2.2.2.2.2.2.2.2.mpr
      ⟨rfl, [("content_size", .num 268435456)], rfl, rfl⟩⟩

end K6
